import Mathlib

/-!
Shallow embedding of the booking core of the alx_travel_app repository
(`listings/models.py` and `listings/serializers.py`).

Modelling conventions:
* Calendar dates are day ordinals (`Int`); Python `date` subtraction yields a
  `timedelta` whose `.days` attribute is exactly the ordinal difference, and
  `date` comparison is ordinal comparison.
* `DecimalField` money values are modelled as `ℚ` (decimal arithmetic on these
  fields is exact in the source: only multiplication by an integer night count
  occurs).
* `User` and foreign keys are modelled by integer identifiers.
* `serializers.ValidationError` is modelled as the error side of `Except`;
  each distinct message raised by the source gets one constructor.
-/

set_option autoImplicit false

namespace AlxTravel

/-- Booking.STATUS_CHOICES from `listings/models.py` (a Django TextChoices;
status comparisons in the source compare the underlying strings). -/
inductive STATUS_CHOICES where
  | PENDING
  | CONFIRMED
  | CANCELLED
  | COMPLETED
deriving DecidableEq, Repr

/-- The fields of `Listing` (models.py) that the booking and review paths
read: the primary key, the current nightly price, and the active flag. -/
structure Listing where
  id : Nat
  price_per_night : ℚ
  is_active : Bool
deriving DecidableEq, Repr

/-- The persisted fields of `Booking` (models.py) used by the core logic.
`listing` and `guest` hold the foreign-key ids. -/
structure Booking where
  listing : Nat
  guest : Nat
  check_in : Int
  check_out : Int
  num_guests : Int
  price_per_night : ℚ
  subtotal : ℚ
  total_price : ℚ
  status : STATUS_CHOICES
deriving DecidableEq, Repr

/-- `Booking.num_nights` (models.py): `(self.check_out - self.check_in).days`. -/
def Booking.num_nights (b : Booking) : Int :=
  b.check_out - b.check_in

/-- `Booking.days_until_checkin` (models.py): the positive day difference when
`check_in` is strictly after today, otherwise `0`.  `today` stands for
`timezone.now().date()`. -/
def Booking.days_until_checkin (b : Booking) (today : Int) : Int :=
  if b.check_in > today then b.check_in - today else 0

/-- `Booking.is_active` (models.py):
`self.status == 'CONFIRMED' and self.check_in <= today <= self.check_out`. -/
def Booking.is_active (b : Booking) (today : Int) : Bool :=
  decide (b.status = .CONFIRMED) && decide (b.check_in ≤ today) && decide (today ≤ b.check_out)

/-- `Booking.can_cancel` (models.py): returns `False` when the status is
`'CANCELLED'`, otherwise `self.days_until_checkin > 2`. -/
def Booking.can_cancel (b : Booking) (today : Int) : Bool :=
  if b.status = .CANCELLED then false
  else decide (b.days_until_checkin today > 2)

/-- The validation errors raised by `BookingSerializer.validate`
(serializers.py), one constructor per distinct message:
`DateOrderError` = "Check-out date must be after check-in date.",
`PastDateError` = "Check-in date cannot be in the past.",
`GuestCountError` = "Number of guests must be at least 1.". -/
inductive BookingValidationError where
  | DateOrderError
  | PastDateError
  | GuestCountError
deriving DecidableEq, Repr

/-- The writable input of `BookingSerializer` (serializers.py): `listing_id`
(resolved to the `Listing`), `guest_id`, the two dates and the guest count.
The price fields are in `read_only_fields`, so a submission carries none. -/
structure BookingInput where
  listing : Listing
  guest : Nat
  check_in : Int
  check_out : Int
  num_guests : Int
deriving DecidableEq, Repr

/-- `BookingSerializer.validate` (serializers.py).  The guard
`if listing and num_guests:` uses Python truthiness: `listing` is a model
instance (always truthy) and `num_guests` is truthy exactly when it is
nonzero, so the guest-count branch runs only for nonzero `num_guests`. -/
def BookingSerializer.validate (today : Int) (d : BookingInput) :
    Except BookingValidationError BookingInput :=
  if d.check_out ≤ d.check_in then
    .error .DateOrderError
  else if d.check_in < today then
    .error .PastDateError
  else if d.num_guests ≠ 0 then
    if d.num_guests < 1 then .error .GuestCountError else .ok d
  else
    .ok d

/-- `BookingSerializer.create` (serializers.py): computes
`num_nights = (check_out - check_in).days`, locks
`price_per_night` from the listing, `subtotal = price_per_night * num_nights`,
`total_price = subtotal`, and persists with the model default status
`PENDING`. -/
def BookingSerializer.create (d : BookingInput) : Booking :=
  let num_nights : Int := d.check_out - d.check_in
  let price_per_night : ℚ := d.listing.price_per_night
  let subtotal : ℚ := price_per_night * (num_nights : ℚ)
  let total_price : ℚ := subtotal
  { listing := d.listing.id
    guest := d.guest
    check_in := d.check_in
    check_out := d.check_out
    num_guests := d.num_guests
    price_per_night := price_per_night
    subtotal := subtotal
    total_price := total_price
    status := .PENDING }

/-- The booking submission path: DRF runs `validate` and only on success calls
`create`; a validation error means no `Booking` row is written. -/
def BookingSerializer.save (today : Int) (d : BookingInput) :
    Except BookingValidationError Booking :=
  (BookingSerializer.validate today d).map BookingSerializer.create

/-- The persisted fields of `Review` (models.py) used by the core logic.
`listing`, `booking` and `reviewer` hold the foreign-key ids; `booking` is a
`OneToOneField`, so the table enforces at most one review per booking. -/
structure Review where
  listing : Nat
  booking : Nat
  reviewer : Nat
  overall_rating : Int
  is_verified : Bool
deriving DecidableEq, Repr

/-- The validation errors of the review creation path, one constructor per
distinct rejection in the source:
`RatingRangeError` = "Rating must be between 1 and 5."
(`ReviewSerializer.validate_overall_rating`),
`BookingNotCompletedError` = "Reviews can only be created for completed
bookings.", `WrongReviewerError` = "Only the guest who made the booking can
review it." (`ReviewSerializer.validate`), and `DuplicateReviewError` = the
uniqueness violation on the one-to-one `booking` column at persistence. -/
inductive ReviewValidationError where
  | RatingRangeError
  | BookingNotCompletedError
  | WrongReviewerError
  | DuplicateReviewError
deriving DecidableEq, Repr

/-- The writable input of `ReviewSerializer` (serializers.py): `listing_id`,
`booking_id` (resolved to the `Booking` row, whose id is kept alongside),
`reviewer_id` and `overall_rating`.  `is_verified` is in `read_only_fields`,
so any value supplied by the caller is dropped before validation. -/
structure ReviewInput where
  listing : Nat
  booking : Booking
  booking_id : Nat
  reviewer : Nat
  overall_rating : Int
deriving DecidableEq, Repr

/-- `ReviewSerializer.validate_overall_rating` (serializers.py): rejects a
rating below 1 or above 5. -/
def ReviewSerializer.validate_overall_rating (value : Int) :
    Except ReviewValidationError Int :=
  if value < 1 ∨ value > 5 then .error .RatingRangeError else .ok value

/-- `ReviewSerializer.validate` (serializers.py): rejects when the booking is
not completed, then when the reviewer is not the booking guest.  `booking`
and `reviewer` are required fields, so the `if booking and reviewer`
truthiness guards are satisfied on every submission that reaches here. -/
def ReviewSerializer.validate (d : ReviewInput) :
    Except ReviewValidationError ReviewInput :=
  if d.booking.status ≠ .COMPLETED then
    .error .BookingNotCompletedError
  else if d.booking.guest ≠ d.reviewer then
    .error .WrongReviewerError
  else
    .ok d

/-- DRF `Serializer.run_validation`: `to_internal_value` applies the
field-level validators — including the `validate_overall_rating` hook — and
only afterwards does the object-level `validate` hook run. -/
def ReviewSerializer.run_validation (d : ReviewInput) :
    Except ReviewValidationError ReviewInput :=
  match ReviewSerializer.validate_overall_rating d.overall_rating with
  | .error e => .error e
  | .ok _ => ReviewSerializer.validate d

/-- `ReviewSerializer.create` (serializers.py): sets `is_verified` to `True`
when the booking status is `COMPLETED`; otherwise the model default `False`
(models.py line 145) stands. -/
def ReviewSerializer.create (d : ReviewInput) : Review :=
  { listing := d.listing
    booking := d.booking_id
    reviewer := d.reviewer
    overall_rating := d.overall_rating
    is_verified := decide (d.booking.status = .COMPLETED) }

/-- Writing a `Review` row: the `OneToOneField` on `booking` makes the insert
fail when a review for the same booking already exists. -/
def persistReview (db : List Review) (r : Review) :
    Except ReviewValidationError (List Review) :=
  if db.any (fun x => x.booking == r.booking) then .error .DuplicateReviewError
  else .ok (r :: db)

/-- The review submission path: field validation, object validation, then the
insert with its uniqueness constraint.  A failure at any stage means no
`Review` row is written. -/
def ReviewSerializer.save (db : List Review) (d : ReviewInput) :
    Except ReviewValidationError (List Review) :=
  match ReviewSerializer.run_validation d with
  | .error e => .error e
  | .ok v => persistReview db (ReviewSerializer.create v)

/-- `self.reviews.all()` for a listing: the reviews whose `listing` foreign
key is this listing. -/
def Listing.associatedReviews (db : List Review) (l : Listing) : List Review :=
  db.filter (fun r => r.listing == l.id)

/-- `Listing.average_rating` (models.py): the mean of `overall_rating` over
the listing's reviews when any exist, and `0` otherwise.  Python `/` on
integers yields an exact value here, modelled in `ℚ`. -/
def Listing.average_rating (db : List Review) (l : Listing) : ℚ :=
  let reviews := Listing.associatedReviews db l
  if reviews.isEmpty then 0
  else ((reviews.map (fun r => (r.overall_rating : ℚ))).sum) / (reviews.length : ℚ)

/-- `Listing.review_count` (models.py): `self.reviews.count()`. -/
def Listing.review_count (db : List Review) (l : Listing) : Nat :=
  (Listing.associatedReviews db l).length

/-! Concrete sample data used by witnesses and counterexamples.  The
reference day ordinal for "today" in the samples is `100`. -/

/-- A listing priced at 100 per night. -/
def sampleListing : Listing :=
  { id := 1, price_per_night := 100, is_active := true }

/-- A second, unrelated listing. -/
def listingTwo : Listing :=
  { id := 2, price_per_night := 80, is_active := true }

/-- A valid booking submission: tomorrow to three days later, two guests. -/
def goodBookingInput : BookingInput :=
  { listing := sampleListing, guest := 3, check_in := 101, check_out := 104, num_guests := 2 }

/-- A submission with check-in and check-out both equal to today. -/
def sameDayInput : BookingInput :=
  { listing := sampleListing, guest := 3, check_in := 100, check_out := 100, num_guests := 2 }

/-- A submission with an ordered date range lying strictly in the past. -/
def pastDateInput : BookingInput :=
  { listing := sampleListing, guest := 3, check_in := 98, check_out := 99, num_guests := 2 }

/-- A submission with valid future dates but zero guests. -/
def zeroGuestInput : BookingInput :=
  { listing := sampleListing, guest := 3, check_in := 101, check_out := 103, num_guests := 0 }

/-- A confirmed booking whose check-in is exactly 2 days after day 100. -/
def confirmedBooking : Booking :=
  { listing := 1, guest := 9, check_in := 102, check_out := 105, num_guests := 2
    price_per_night := 100, subtotal := 300, total_price := 300, status := .CONFIRMED }

/-- A confirmed booking whose check-in is exactly 3 days after day 100. -/
def confirmedBookingLater : Booking :=
  { listing := 1, guest := 9, check_in := 103, check_out := 105, num_guests := 2
    price_per_night := 100, subtotal := 200, total_price := 200, status := .CONFIRMED }

/-- A pending booking whose date range contains day 1. -/
def pendingBooking : Booking :=
  { listing := 1, guest := 9, check_in := 0, check_out := 2, num_guests := 2
    price_per_night := 100, subtotal := 200, total_price := 200, status := .PENDING }

/-- A completed booking on listing 1 by guest 9. -/
def completedBooking : Booking :=
  { listing := 1, guest := 9, check_in := 0, check_out := 2, num_guests := 2
    price_per_night := 100, subtotal := 200, total_price := 200, status := .COMPLETED }

/-- A review submission for `pendingBooking` by its own guest with rating 6:
the booking-status check and the rating-range check are both violated. -/
def badOrderReviewInput : ReviewInput :=
  { listing := 1, booking := pendingBooking, booking_id := 7, reviewer := 9, overall_rating := 6 }

/-- A fully valid review submission for `completedBooking` by its own guest. -/
def goodReviewInput : ReviewInput :=
  { listing := 1, booking := completedBooking, booking_id := 7, reviewer := 9, overall_rating := 5 }

/-- A review submission naming listing 2 while its booking is on listing 1. -/
def crossListingInput : ReviewInput :=
  { listing := 2, booking := completedBooking, booking_id := 7, reviewer := 9, overall_rating := 5 }

/-- Three reviews of listing 1 with ratings 5, 3 and 4. -/
def sampleReviewDb : List Review :=
  [ { listing := 1, booking := 11, reviewer := 9, overall_rating := 5, is_verified := true }
  , { listing := 1, booking := 12, reviewer := 8, overall_rating := 3, is_verified := true }
  , { listing := 1, booking := 13, reviewer := 7, overall_rating := 4, is_verified := true } ]

/-! Helper lemmas shared by the claim theorems. -/

theorem BookingSerializer.validate_ok_eq {today : Int} {d v : BookingInput}
    (h : BookingSerializer.validate today d = .ok v) : v = d := by
  unfold BookingSerializer.validate at h
  repeat' split at h
  all_goals simp_all

theorem ReviewSerializer.run_validation_ok {d v : ReviewInput}
    (h : ReviewSerializer.run_validation d = .ok v) :
    v = d ∧ 1 ≤ d.overall_rating ∧ d.overall_rating ≤ 5 ∧
      d.booking.status = .COMPLETED ∧ d.booking.guest = d.reviewer := by
  unfold ReviewSerializer.run_validation at h
  by_cases hr : d.overall_rating < 1 ∨ d.overall_rating > 5
  · simp [ReviewSerializer.validate_overall_rating, hr] at h
  · simp [ReviewSerializer.validate_overall_rating, hr] at h
    unfold ReviewSerializer.validate at h
    repeat' split at h
    all_goals simp_all

/-- Claim C1: every accepted booking creation locks the price fields from the
listing's then-current nightly price: num_nights is the whole-day difference
check_out − check_in, subtotal is price_per_night × num_nights, and
total_price equals subtotal. -/
theorem booking_create_locks_prices (today : Int) (d : BookingInput) (b : Booking)
    (h : BookingSerializer.save today d = .ok b) :
    b.num_nights = d.check_out - d.check_in ∧
    b.price_per_night = d.listing.price_per_night ∧
    b.subtotal = b.price_per_night * (b.num_nights : ℚ) ∧
    b.total_price = b.subtotal := by
  unfold BookingSerializer.save at h
  cases hv : BookingSerializer.validate today d with
  | error e =>
    rw [hv] at h
    exact absurd h (by simp [Except.map])
  | ok v =>
    have hvd := BookingSerializer.validate_ok_eq hv
    subst hvd
    rw [hv] at h
    simp only [Except.map] at h
    cases h
    simp [BookingSerializer.create, Booking.num_nights]

/-- Claim C1 witness: the accepted submission `goodBookingInput` (3 nights at
price 100) satisfies the locked-price equations. -/
theorem booking_create_locks_prices_witness :
    (BookingSerializer.create goodBookingInput).num_nights =
        goodBookingInput.check_out - goodBookingInput.check_in ∧
    (BookingSerializer.create goodBookingInput).price_per_night =
        goodBookingInput.listing.price_per_night ∧
    (BookingSerializer.create goodBookingInput).subtotal =
        (BookingSerializer.create goodBookingInput).price_per_night *
          ((BookingSerializer.create goodBookingInput).num_nights : ℚ) ∧
    (BookingSerializer.create goodBookingInput).total_price =
        (BookingSerializer.create goodBookingInput).subtotal :=
  booking_create_locks_prices 100 goodBookingInput
    (BookingSerializer.create goodBookingInput) rfl

/-- Claim C2: the booking validator checks dates in order, short-circuiting:
check_out ≤ check_in fails with DateOrderError (covering
check_in = check_out = today), and otherwise check_in strictly before today
fails with PastDateError; on either failure no Booking is persisted. -/
theorem booking_validate_date_order (today : Int) (d : BookingInput) :
    (d.check_out ≤ d.check_in →
      BookingSerializer.save today d = .error .DateOrderError) ∧
    (d.check_in < d.check_out → d.check_in < today →
      BookingSerializer.save today d = .error .PastDateError) := by
  constructor
  · intro h1
    unfold BookingSerializer.save BookingSerializer.validate
    simp [h1, Except.map]
  · intro h1 h2
    unfold BookingSerializer.save BookingSerializer.validate
    have h3 : ¬ d.check_out ≤ d.check_in := by omega
    simp [h3, h2, Except.map]

/-- Claim C2 witness: a same-day submission on today is rejected with
DateOrderError and a past ordered range is rejected with PastDateError. -/
theorem booking_validate_date_order_witness :
    BookingSerializer.save 100 sameDayInput = .error .DateOrderError ∧
    BookingSerializer.save 100 pastDateInput = .error .PastDateError :=
  ⟨(booking_validate_date_order 100 sameDayInput).1 (by decide),
   (booking_validate_date_order 100 pastDateInput).2 (by decide) (by decide)⟩

/-- Claim C3 (refuting evaluation): the claim states that num_guests < 1
fails validation with GuestCountError, so every persisted booking has
num_guests ≥ 1.  The source's guard `if listing and num_guests:` skips the
guest-count check when num_guests is 0 (falsy), so this zero-guest
submission passes validation and a Booking with num_guests = 0 is
persisted — contradicting the check's own message that the number of guests
must be at least 1. -/
theorem booking_validate_zero_guests_accepted :
    zeroGuestInput.num_guests < 1 ∧
    BookingSerializer.validate 100 zeroGuestInput = .ok zeroGuestInput ∧
    BookingSerializer.save 100 zeroGuestInput =
      .ok (BookingSerializer.create zeroGuestInput) ∧
    (BookingSerializer.create zeroGuestInput).num_guests = 0 :=
  ⟨by decide, rfl, rfl, rfl⟩

/-- Claim C4 counterexample: for a review of a pending booking by its own
guest with rating 6, both the booking-status check (claimed first) and the
rating-range check (claimed third) are violated, yet the reported error is
RatingRangeError, because the field-level rating validator runs before the
object-level status check.  Under the claimed order the error would be
BookingNotCompletedError. -/
theorem review_check_order_counterexample :
    badOrderReviewInput.booking.status ≠ .COMPLETED ∧
    badOrderReviewInput.reviewer = badOrderReviewInput.booking.guest ∧
    ReviewSerializer.save [] badOrderReviewInput = .error .RatingRangeError :=
  ⟨by decide, rfl, rfl⟩

/-- Claim C4 (amended): the eligibility checks short-circuit in the order
rating in [1,5] (RatingRangeError, field level), booking Completed
(BookingNotCompletedError), reviewer = guest (WrongReviewerError), then the
one-review-per-booking uniqueness at persistence (DuplicateReviewError); a
review is persisted only when all four hold. -/
theorem review_checks_order (db : List Review) (d : ReviewInput) :
    ((d.overall_rating < 1 ∨ 5 < d.overall_rating) →
      ReviewSerializer.save db d = .error .RatingRangeError) ∧
    (1 ≤ d.overall_rating → d.overall_rating ≤ 5 →
      d.booking.status ≠ .COMPLETED →
      ReviewSerializer.save db d = .error .BookingNotCompletedError) ∧
    (1 ≤ d.overall_rating → d.overall_rating ≤ 5 →
      d.booking.status = .COMPLETED → d.booking.guest ≠ d.reviewer →
      ReviewSerializer.save db d = .error .WrongReviewerError) ∧
    (1 ≤ d.overall_rating → d.overall_rating ≤ 5 →
      d.booking.status = .COMPLETED → d.booking.guest = d.reviewer →
      db.any (fun x => x.booking == d.booking_id) = true →
      ReviewSerializer.save db d = .error .DuplicateReviewError) ∧
    (∀ db2, ReviewSerializer.save db d = .ok db2 →
      1 ≤ d.overall_rating ∧ d.overall_rating ≤ 5 ∧
      d.booking.status = .COMPLETED ∧ d.booking.guest = d.reviewer ∧
      db.any (fun x => x.booking == d.booking_id) = false) := by
  refine ⟨?_, ?_, ?_, ?_, ?_⟩
  · intro hr
    unfold ReviewSerializer.save ReviewSerializer.run_validation
        ReviewSerializer.validate_overall_rating
    simp [hr]
  · intro hr1 hr2 hs
    have hr : ¬ (d.overall_rating < 1 ∨ d.overall_rating > 5) := by omega
    unfold ReviewSerializer.save ReviewSerializer.run_validation
        ReviewSerializer.validate_overall_rating ReviewSerializer.validate
    simp [hr, hs]
  · intro hr1 hr2 hs hg
    have hr : ¬ (d.overall_rating < 1 ∨ d.overall_rating > 5) := by omega
    unfold ReviewSerializer.save ReviewSerializer.run_validation
        ReviewSerializer.validate_overall_rating ReviewSerializer.validate
    simp [hr, hs, hg]
  · intro hr1 hr2 hs hg hdup
    have hr : ¬ (d.overall_rating < 1 ∨ d.overall_rating > 5) := by omega
    unfold ReviewSerializer.save ReviewSerializer.run_validation
        ReviewSerializer.validate_overall_rating ReviewSerializer.validate
        persistReview
    simp only [ReviewSerializer.create] at *
    simp [hr, hs, hg, hdup]
  · intro db2 h
    unfold ReviewSerializer.save at h
    cases hv : ReviewSerializer.run_validation d with
    | error e =>
      rw [hv] at h
      exact absurd h (by simp)
    | ok v =>
      obtain ⟨hvd, hr1, hr2, hs, hg⟩ := ReviewSerializer.run_validation_ok hv
      subst hvd
      rw [hv] at h
      have h2 : persistReview db (ReviewSerializer.create v) = .ok db2 := h
      unfold persistReview at h2
      refine ⟨hr1, hr2, hs, hg, ?_⟩
      by_contra hdup
      rw [Bool.not_eq_false] at hdup
      have hdup2 : (db.any fun x => x.booking == (ReviewSerializer.create v).booking) = true := hdup
      rw [if_pos hdup2] at h2
      exact absurd h2 (by simp)

/-- Claim C4 witness: a second review of the same completed booking is
rejected with DuplicateReviewError, matching the amended fourth check. -/
theorem review_checks_order_witness :
    ReviewSerializer.save [ReviewSerializer.create goodReviewInput] goodReviewInput =
      .error .DuplicateReviewError :=
  (review_checks_order [ReviewSerializer.create goodReviewInput]
      goodReviewInput).2.2.2.1 (by decide) (by decide) (by decide) (by decide) (by decide)

/-- Claim C5: can_cancel is true exactly when the status is not Cancelled
and days_until_checkin exceeds 2; a Confirmed booking 2 days out cannot be
cancelled, while one 3 days out can. -/
theorem booking_can_cancel_spec (b : Booking) (today : Int) :
    (b.can_cancel today = true ↔
      (b.status ≠ .CANCELLED ∧ 2 < b.days_until_checkin today)) ∧
    (b.status = .CONFIRMED → b.check_in = today + 2 →
      b.can_cancel today = false) ∧
    (b.status = .CONFIRMED → b.check_in = today + 3 →
      b.can_cancel today = true) := by
  refine ⟨?_, ?_, ?_⟩
  · unfold Booking.can_cancel
    split <;> simp_all
  · intro hs hc
    unfold Booking.can_cancel
    rw [if_neg (by simp [hs])]
    have hd : b.days_until_checkin today = 2 := by
      unfold Booking.days_until_checkin
      rw [if_pos (by omega)]
      omega
    simp [hd]
  · intro hs hc
    unfold Booking.can_cancel
    rw [if_neg (by simp [hs])]
    have hd : b.days_until_checkin today = 3 := by
      unfold Booking.days_until_checkin
      rw [if_pos (by omega)]
      omega
    simp [hd]

/-- Claim C5 witness: on day 100, the confirmed booking checking in on day
102 cannot be cancelled and the one checking in on day 103 can. -/
theorem booking_can_cancel_spec_witness :
    confirmedBooking.can_cancel 100 = false ∧
    confirmedBookingLater.can_cancel 100 = true :=
  ⟨(booking_can_cancel_spec confirmedBooking 100).2.1 (by decide) (by decide),
   (booking_can_cancel_spec confirmedBookingLater 100).2.2 (by decide) (by decide)⟩

/-- Claim C6: is_active is true exactly when the status is Confirmed and
today lies in [check_in, check_out] inclusive; for any other status it is
false regardless of the dates. -/
theorem booking_is_active_spec (b : Booking) (today : Int) :
    (b.is_active today = true ↔
      (b.status = .CONFIRMED ∧ b.check_in ≤ today ∧ today ≤ b.check_out)) ∧
    (b.status ≠ .CONFIRMED → b.is_active today = false) := by
  constructor
  · unfold Booking.is_active
    simp [and_assoc]
  · intro hs
    unfold Booking.is_active
    simp [hs]

/-- Claim C6 witness: a Pending booking is not active even on a day inside
its date range. -/
theorem booking_is_active_spec_witness :
    pendingBooking.is_active 1 = false :=
  (booking_is_active_spec pendingBooking 1).2 (by decide)

/-- Claim C7: days_until_checkin equals max(0, check_in − today): the
positive day difference for future check-ins and 0, never negative, for past
or same-day check-ins. -/
theorem booking_days_until_checkin_spec (b : Booking) (today : Int) :
    b.days_until_checkin today = max 0 (b.check_in - today) := by
  unfold Booking.days_until_checkin
  split <;> omega

/-- Claim C8: average_rating is the arithmetic mean of overall_rating over
the listing's reviews and 0 when there are none; review_count is the number
of associated reviews; over ratings [5,3,4] the average is exactly 4. -/
theorem listing_average_rating_spec (db : List Review) (l : Listing) :
    (Listing.review_count db l = 0 → Listing.average_rating db l = 0) ∧
    (Listing.review_count db l ≠ 0 →
      (Listing.review_count db l : ℚ) * Listing.average_rating db l =
        ((Listing.associatedReviews db l).map (fun r => (r.overall_rating : ℚ))).sum) ∧
    Listing.review_count db l = db.countP (fun r => r.listing == l.id) ∧
    Listing.average_rating sampleReviewDb sampleListing = 4 ∧
    Listing.review_count sampleReviewDb sampleListing = 3 := by
  refine ⟨?_, ?_, ?_, ?_, by decide⟩
  case refine_4 =>
    show Listing.average_rating sampleReviewDb sampleListing = 4
    norm_num [Listing.average_rating, Listing.associatedReviews, sampleReviewDb,
      sampleListing]
  · intro h0
    have h1 : (Listing.associatedReviews db l).length = 0 := h0
    have h2 : Listing.associatedReviews db l = [] := List.length_eq_zero.mp h1
    unfold Listing.average_rating
    simp [h2]
  · intro hne
    have hlen : (Listing.associatedReviews db l).length ≠ 0 := hne
    have hq : ((Listing.associatedReviews db l).length : ℚ) ≠ 0 := by
      exact_mod_cast hlen
    have hemp : (Listing.associatedReviews db l).isEmpty = false := by
      cases hL : Listing.associatedReviews db l with
      | nil => rw [hL] at hlen; simp at hlen
      | cons a as => simp
    have hc : (Listing.review_count db l : ℚ) =
        ((Listing.associatedReviews db l).length : ℚ) := rfl
    unfold Listing.average_rating
    rw [hc]
    simp only [hemp, Bool.false_eq_true, if_false]
    field_simp
  · simp [Listing.review_count, Listing.associatedReviews,
      List.countP_eq_length_filter]

/-- Claim C8 witness: over no reviews the average is 0, and over the sample
database the count times the average gives back the rating sum. -/
theorem listing_average_rating_spec_witness :
    Listing.average_rating [] sampleListing = 0 ∧
    (Listing.review_count sampleReviewDb sampleListing : ℚ) *
        Listing.average_rating sampleReviewDb sampleListing =
      ((Listing.associatedReviews sampleReviewDb sampleListing).map
          (fun r => (r.overall_rating : ℚ))).sum :=
  ⟨(listing_average_rating_spec [] sampleListing).1 (by decide),
   (listing_average_rating_spec sampleReviewDb sampleListing).2.1 (by decide)⟩

/-- Claim C9: every review accepted by the review creation path is persisted
with is_verified = true: validation requires a Completed booking and the
create step then forces the flag, overriding the model default of false;
the caller cannot supply the read-only field. -/
theorem review_created_is_verified (db : List Review) (d : ReviewInput)
    (db2 : List Review) (h : ReviewSerializer.save db d = .ok db2) :
    db2 = ReviewSerializer.create d :: db ∧
    (ReviewSerializer.create d).is_verified = true := by
  unfold ReviewSerializer.save at h
  cases hv : ReviewSerializer.run_validation d with
  | error e =>
    rw [hv] at h
    exact absurd h (by simp)
  | ok v =>
    obtain ⟨hvd, hr1, hr2, hs, hg⟩ := ReviewSerializer.run_validation_ok hv
    subst hvd
    rw [hv] at h
    have h2 : persistReview db (ReviewSerializer.create v) = .ok db2 := h
    unfold persistReview at h2
    split at h2
    · exact absurd h2 (by simp)
    · have h3 : ReviewSerializer.create v :: db = db2 := by simpa using h2
      exact ⟨h3.symm, by simp [ReviewSerializer.create, hs]⟩

/-- Claim C9 witness: the valid review of the completed booking is persisted
and carries is_verified = true. -/
theorem review_created_is_verified_witness :
    ([ReviewSerializer.create goodReviewInput] : List Review) =
        ReviewSerializer.create goodReviewInput :: [] ∧
    (ReviewSerializer.create goodReviewInput).is_verified = true :=
  review_created_is_verified [] goodReviewInput
    [ReviewSerializer.create goodReviewInput] rfl

/-- Claim C10: review validation never compares the submitted listing with
the booking's listing: a review of a completed booking on listing 1, by its
own guest and with an in-range rating, but naming listing 2, passes the
whole path, and the persisted review is attached to and counted in the
statistics of the unrelated listing 2, not listing 1. -/
theorem review_listing_mismatch_unchecked :
    crossListingInput.booking.status = .COMPLETED ∧
    crossListingInput.reviewer = crossListingInput.booking.guest ∧
    1 ≤ crossListingInput.overall_rating ∧
    crossListingInput.overall_rating ≤ 5 ∧
    crossListingInput.listing ≠ crossListingInput.booking.listing ∧
    ReviewSerializer.save [] crossListingInput =
      .ok [ReviewSerializer.create crossListingInput] ∧
    (ReviewSerializer.create crossListingInput).listing = listingTwo.id ∧
    Listing.review_count [ReviewSerializer.create crossListingInput] listingTwo = 1 ∧
    Listing.average_rating [ReviewSerializer.create crossListingInput] listingTwo = 5 ∧
    Listing.review_count [ReviewSerializer.create crossListingInput] sampleListing = 0 :=
  ⟨rfl, rfl, by decide, by decide, by decide, rfl, rfl, rfl,
   by norm_num [Listing.average_rating, Listing.associatedReviews,
     ReviewSerializer.create, crossListingInput, listingTwo, completedBooking],
   rfl⟩

end AlxTravel
